import Mathlib

/-!
Verification of the LAWBOT retrieval-augmented-generation pipeline.

Shallow embedding of `app/rag/law_rag.py`, `app/rag/law_rag_graph.py`,
`app/api/routes_law_chat.py`, `app/ingestion/embeddings.py` and
`app/config.py`.  Python strings are modelled as lists of characters
(`PyStr`), machine floats (similarity scores, query vectors) are abstracted
behind type parameters `σ` and `Vec` because no pipeline logic inspects
their values, and Python exceptions are modelled with `Except`: a raised
`RuntimeError`/`KeyError` is an `Except.error` carrying the message.
The three external collaborators (embedding provider, Qdrant vector search,
OpenAI chat completion) are a `Gateways` record of deterministic functions;
the HTTP transport and the JSON normalisation of the Qdrant response are
the gateway boundary, so `Gateways.search` returns already-normalised
neighbor records.  Wall-clock timings (`embed_ms`, `qdrant_ms`) are
diagnostic only and modelled as 0.
-/

namespace Lawbot

/-- A Python string, modelled as its list of characters. -/
abbrev PyStr := List Char

/-- Coerce a Lean string literal to the Python-string model. -/
def pyStr (s : String) : PyStr := s.toList

/-- Python `str.strip()`: drop whitespace from both ends. -/
def pyTrim (s : PyStr) : PyStr :=
  ((s.dropWhile Char.isWhitespace).reverse.dropWhile Char.isWhitespace).reverse

/-- Python `str.lower()`. -/
def pyLower (s : PyStr) : PyStr := s.map Char.toLower

/-- Python `a or b` on strings: the empty string is falsy. -/
def pyOr (a b : PyStr) : PyStr := if a = [] then b else a

/-- The settings from `app/config.py` that the pipeline reads (each is an
environment string, already stripped by the config module). -/
structure Config where
  EMBED_PROVIDER : PyStr
  QDRANT_URL : PyStr
  QDRANT_COLLECTION_NAME : PyStr
  QDRANT_COLLECTION_OAI : PyStr

/-- A normalised neighbor record, the shape produced by the result loop of
`qdrant_search_laws` (law_rag.py lines 92-116).  `σ` abstracts the float
similarity score. -/
structure Point (σ : Type) where
  id : PyStr := []
  score : σ
  dataset : Option PyStr := none
  category : Option PyStr := none
  question : Option PyStr := none
  answer : Option PyStr := none
  answerSnippet : Option PyStr := none
  docNo : Option Int := none
  collection : PyStr := []

/-- One streamed chat-completion delta (`chunk.choices[0].delta.content`). -/
structure ChunkDelta where
  content : Option PyStr

/-- One choice inside a streamed chunk. -/
structure ChunkChoice where
  delta : Option ChunkDelta

/-- One chunk of the OpenAI streaming response. -/
structure StreamChunk where
  choices : List ChunkChoice

/-- The external collaborators, as deterministic functions.
`embed1` is `embed_texts` applied to the single-element batch `[q]` and
projected to its first vector; `search` is the Qdrant REST search plus its
payload normalisation; `completeRaw` is the chat completion content (which
the API may return as `None`); `stream` is the raw chunk sequence of the
streaming chat completion. -/
structure Gateways (Vec σ : Type) where
  embed1 : PyStr → Vec
  search : Vec → Int → PyStr → List (Point σ)
  completeRaw : PyStr → PyStr → Option PyStr
  stream : PyStr → PyStr → List StreamChunk

/-! ## app/rag/law_rag.py -/

/-- Embedding of `_active_collection_name` (law_rag.py lines 38-46). -/
def _active_collection_name (cfg : Config) : PyStr :=
  if pyLower (pyTrim cfg.EMBED_PROVIDER) = pyStr "kure" then
    cfg.QDRANT_COLLECTION_NAME
  else
    pyOr cfg.QDRANT_COLLECTION_OAI cfg.QDRANT_COLLECTION_NAME

/-- The collection name `qdrant_search_laws` resolves and strips
(law_rag.py line 68): `(collection_name or _active_collection_name()).strip()`,
where both `None` and the empty string fall back to the active collection. -/
def resolvedCollection (cfg : Config) (collection_name : Option PyStr) : PyStr :=
  pyTrim (match collection_name with
    | none => _active_collection_name cfg
    | some s => pyOr s (_active_collection_name cfg))

/-- Embedding of `qdrant_search_laws` (law_rag.py lines 56-118).  The two `RuntimeError`
branches are the configuration checks performed before the HTTP request;
only after both pass is the search gateway consulted. -/
def qdrant_search_laws {Vec σ : Type} (cfg : Config) (gw : Gateways Vec σ)
    (query_vec : Vec) (top_k : Int) (collection_name : Option PyStr := none) :
    Except String (List (Point σ)) :=
  if cfg.QDRANT_URL = [] then
    .error "QDRANT_URL 이 비었습니다. .env 확인"
  else if resolvedCollection cfg collection_name = [] then
    .error "QDRANT_COLLECTION_NAME/QDRANT_COLLECTION_OAI 가 비었습니다. .env 확인"
  else
    .ok (gw.search query_vec top_k (resolvedCollection cfg collection_name))

/-- The truncation marker appended by `build_context_from_points`. -/
def truncMarker : PyStr := pyStr "…"

/-- The answer text emitted for one neighbor: stripped, and truncated to
`max_chars_per_doc` characters with the marker appended when it is longer
(law_rag.py lines 125-128). -/
def processedAnswer {σ : Type} (max_chars_per_doc : Int) (p : Point σ) : PyStr :=
  let a := pyTrim (p.answer.getD [])
  if max_chars_per_doc > 0 ∧ (a.length : Int) > max_chars_per_doc then
    a.take max_chars_per_doc.toNat ++ truncMarker
  else
    a

/-- The `[문서 i]` header line. -/
def headerLine (i : Nat) : PyStr := pyStr "[문서 " ++ (toString i).toList ++ pyStr "]"

/-- The lines appended for one neighbor by the loop body of
`build_context_from_points` (law_rag.py lines 123-135): header, then the
stripped question and the processed answer when non-blank, then a blank
separator line. -/
def pointLines {σ : Type} (i : Nat) (p : Point σ) (max_chars_per_doc : Int) :
    List PyStr :=
  let q := pyTrim (p.question.getD [])
  let a := processedAnswer max_chars_per_doc p
  [headerLine i]
    ++ (if q ≠ [] then [pyStr "Q: " ++ q] else [])
    ++ (if a ≠ [] then [pyStr "A: " ++ a] else [])
    ++ [[]]

/-- The full `lines` list accumulated by the `enumerate(points, start=1)`
loop of `build_context_from_points`, starting at index `i`. -/
def contextLines {σ : Type} : Nat → List (Point σ) → Int → List PyStr
  | _, [], _ => []
  | i, p :: rest, C => pointLines i p C ++ contextLines (i + 1) rest C

/-- Embedding of `build_context_from_points` (law_rag.py lines 121-137):
`"\n".join(lines).strip()`. -/
def build_context_from_points {σ : Type} (points : List (Point σ))
    (max_chars_per_doc : Int := 900) : PyStr :=
  pyTrim (List.intercalate (pyStr "\n") (contextLines 1 points max_chars_per_doc))

/-- Embedding of `call_openai_chat` (law_rag.py lines 149-161):
`(resp.choices[0].message.content or "").strip()`. -/
def call_openai_chat {Vec σ : Type} (gw : Gateways Vec σ)
    (system_prompt user_prompt : PyStr) : PyStr :=
  pyTrim ((gw.completeRaw system_prompt user_prompt).getD [])

/-- The delta extracted from one streamed chunk (law_rag.py line 182):
`chunk.choices[0].delta.content if chunk.choices and chunk.choices[0].delta
else None`. -/
def chunkDelta (ch : StreamChunk) : Option PyStr :=
  match ch.choices with
  | [] => none
  | c :: _ =>
    match c.delta with
    | none => none
    | some d => d.content

/-- Embedding of `call_openai_chat_stream` (law_rag.py lines 164-190): yield each delta,
skipping falsy ones (`None` and the empty string); the first-token timing
print is diagnostic only. -/
def call_openai_chat_stream {Vec σ : Type} (gw : Gateways Vec σ)
    (system_prompt user_prompt : PyStr) : List PyStr :=
  (gw.stream system_prompt user_prompt).filterMap fun ch =>
    match chunkDelta ch with
    | none => none
    | some delta => if delta = [] then none else some delta

/-- The fixed system prompt built by `_build_prompts` (law_rag.py lines
194-202). -/
def lawSystemPrompt : PyStr :=
  pyStr ("당신은 한국어 법률 상담 보조 AI입니다.\n반드시 제공된 [문서 n] 근거를 우선하여 답하고, 근거가 부족하면 \x27추가상담 필요\x27를 명시하세요.\n출력 형식:\n1) 요약\n2) 단계\n3) 주의사항(리스크)\n4) 추가상담\n")

/-- The user prompt built by `_build_prompts` (law_rag.py lines 204-208). -/
def lawUserPrompt (question context : PyStr) : PyStr :=
  pyStr "질문: " ++ question ++ pyStr "\n\n"
    ++ pyStr "아래는 참고 문서(근거)입니다:\n" ++ context ++ pyStr "\n\n"
    ++ pyStr "요구 형식대로 답해주세요. 각 문장은 가능한 한 [문서 n] 근거를 붙이세요."

/-- Embedding of `_build_prompts` (law_rag.py lines 193-209). -/
def _build_prompts (question context : PyStr) : PyStr × PyStr :=
  (lawSystemPrompt, lawUserPrompt question context)

/-- Embedding of `search_law_with_answer` (law_rag.py lines 212-256): embed, search the
active collection, assemble context, build prompts, complete; all timing
prints are diagnostic only. -/
def search_law_with_answer {Vec σ : Type} (cfg : Config) (gw : Gateways Vec σ)
    (query : PyStr) (top_k : Int) : Except String (PyStr × List (Point σ)) :=
  let active_col := _active_collection_name cfg
  let query_vec := gw.embed1 query
  match qdrant_search_laws cfg gw query_vec top_k (some active_col) with
  | .error e => .error e
  | .ok points =>
    let context := build_context_from_points points
    let (system_prompt, user_prompt) := _build_prompts query context
    .ok (call_openai_chat gw system_prompt user_prompt, points)

/-- Embedding of `stream_law_answer` (law_rag.py lines 259-298): identical prep to
`search_law_with_answer`, then the streaming generation on the prompt pair. -/
def stream_law_answer {Vec σ : Type} (cfg : Config) (gw : Gateways Vec σ)
    (query : PyStr) (top_k : Int) :
    Except String (List PyStr × List (Point σ)) :=
  let active_col := _active_collection_name cfg
  let query_vec := gw.embed1 query
  match qdrant_search_laws cfg gw query_vec top_k (some active_col) with
  | .error e => .error e
  | .ok points =>
    let context := build_context_from_points points
    let (system_prompt, user_prompt) := _build_prompts query context
    .ok (call_openai_chat_stream gw system_prompt user_prompt, points)

/-! ## app/ingestion/embeddings.py -/

/-- The per-text input cleaning of `embed_texts_openai` (embeddings.py lines
41-46): newlines become spaces, the result is stripped, and an empty string
is replaced by a single space before being sent to the provider. -/
def cleanEmbedInput (t : PyStr) : PyStr :=
  let s := pyTrim (t.map fun c => if c = '\n' then ' ' else c)
  if s = [] then [' '] else s

/-! ## app/rag/law_rag_graph.py -/

/-- Embedding of `GraphState` (law_rag_graph.py lines 20-38): a `TypedDict` with
`total=False`, so every key may be absent (`none`). -/
structure GraphState (Vec σ : Type) where
  question : Option PyStr := none
  top_k : Option Int := none
  embed_ms : Option Int := none
  qdrant_ms : Option Int := none
  query_vec : Option Vec := none
  points : Option (List (Point σ)) := none
  context : Option PyStr := none
  system_prompt : Option PyStr := none
  user_prompt : Option PyStr := none
  answer : Option PyStr := none

/-- Embedding of `_node_embed` (law_rag_graph.py lines 41-48).  `state["question"]`
raises `KeyError` when absent; the elapsed-time write is modelled as 0. -/
def _node_embed {Vec σ : Type} (gw : Gateways Vec σ) (state : GraphState Vec σ) :
    Except String (GraphState Vec σ) :=
  match state.question with
  | none => .error "KeyError: question"
  | some q =>
    .ok { state with query_vec := some (gw.embed1 q), embed_ms := some 0 }

/-- Embedding of `_node_retrieve` (law_rag_graph.py lines 51-60): reads `query_vec` and
`state.get("top_k", 5)`, searches (letting `qdrant_search_laws` resolve the
collection), and writes `points`, `qdrant_ms` and the derived `context`. -/
def _node_retrieve {Vec σ : Type} (cfg : Config) (gw : Gateways Vec σ)
    (state : GraphState Vec σ) : Except String (GraphState Vec σ) :=
  match state.query_vec with
  | none => .error "KeyError: query_vec"
  | some vec =>
    match qdrant_search_laws cfg gw vec (state.top_k.getD 5) with
    | .error e => .error e
    | .ok pts =>
      .ok { state with points := some pts, qdrant_ms := some 0,
                       context := some (build_context_from_points pts) }

/-- The system prompt literal inlined in `_node_prompt`
(law_rag_graph.py lines 67-75); textually identical to the one in
`_build_prompts`. -/
def graphSystemPrompt : PyStr :=
  pyStr ("당신은 한국어 법률 상담 보조 AI입니다.\n반드시 제공된 [문서 n] 근거를 우선하여 답하고, 근거가 부족하면 \x27추가상담 필요\x27를 명시하세요.\n출력 형식:\n1) 요약\n2) 단계\n3) 주의사항(리스크)\n4) 추가상담\n")

/-- The user prompt built inline by `_node_prompt`
(law_rag_graph.py lines 77-81). -/
def graphUserPrompt (question context : PyStr) : PyStr :=
  pyStr "질문: " ++ question ++ pyStr "\n\n"
    ++ pyStr "아래는 참고 문서(근거)입니다:\n" ++ context ++ pyStr "\n\n"
    ++ pyStr "요구 형식대로 답해주세요. 각 문장은 가능한 한 [문서 n] 근거를 붙이세요."

/-- Embedding of `_node_prompt` (law_rag_graph.py lines 63-85): reads `question` (a
required key) and `state.get("context", "")`, writes the prompt pair. -/
def _node_prompt {Vec σ : Type} (state : GraphState Vec σ) :
    Except String (GraphState Vec σ) :=
  match state.question with
  | none => .error "KeyError: question"
  | some q =>
    .ok { state with system_prompt := some graphSystemPrompt,
                     user_prompt := some (graphUserPrompt q (state.context.getD [])) }

/-- Embedding of `_node_generate` (law_rag_graph.py lines 88-93): reads the prompt pair
(required keys) and writes `answer`. -/
def _node_generate {Vec σ : Type} (gw : Gateways Vec σ)
    (state : GraphState Vec σ) : Except String (GraphState Vec σ) :=
  match state.system_prompt with
  | none => .error "KeyError: system_prompt"
  | some sp =>
    match state.user_prompt with
    | none => .error "KeyError: user_prompt"
    | some up =>
      .ok { state with answer := some (call_openai_chat gw sp up) }

/-- Embedding of `answer_law_question_graph` (law_rag_graph.py lines 129-164): run the
full compiled graph embed → retrieve → prompt → generate on the initial
state and return `(final.get("answer", ""), final.get("points", []))`. -/
def answer_law_question_graph {Vec σ : Type} (cfg : Config) (gw : Gateways Vec σ)
    (question : PyStr) (top_k : Int) : Except String (PyStr × List (Point σ)) :=
  let state : GraphState Vec σ := { question := some question, top_k := some top_k }
  match _node_embed gw state with
  | .error e => .error e
  | .ok s1 =>
    match _node_retrieve cfg gw s1 with
    | .error e => .error e
    | .ok s2 =>
      match _node_prompt s2 with
      | .error e => .error e
      | .ok s3 =>
        match _node_generate gw s3 with
        | .error e => .error e
        | .ok final => .ok (final.answer.getD [], final.points.getD [])

/-! ## app/api/routes_law_chat.py -/

/-- The pydantic validation of `LawChatRequest` (routes_law_chat.py lines
16-18): `question` has `min_length=1` and `top_k` must lie in `[1, 20]`.
A request failing this never reaches the pipeline entry operations. -/
def lawChatRequestValid (question : PyStr) (top_k : Int) : Bool :=
  decide (1 ≤ question.length) && (decide (1 ≤ top_k) && decide (top_k ≤ 20))

/-! ## Concrete instances used by witnesses and counterexamples -/

/-- A well-formed configuration: OpenAI provider, non-empty URL and
collection names. -/
def cfgA : Config :=
  { EMBED_PROVIDER := pyStr "openai"
    QDRANT_URL := pyStr "http://localhost:6333"
    QDRANT_COLLECTION_NAME := pyStr "law_qa_v1"
    QDRANT_COLLECTION_OAI := pyStr "KLAC_BASIC_1_OAI_1536" }

/-- A misconfiguration: the URL is set but both collection names are empty. -/
def cfgEmptyCol : Config :=
  { EMBED_PROVIDER := pyStr "openai"
    QDRANT_URL := pyStr "http://localhost:6333"
    QDRANT_COLLECTION_NAME := []
    QDRANT_COLLECTION_OAI := [] }

/-- A concrete neighbor with a short question and answer. -/
def ptA : Point Int :=
  { id := pyStr "1", score := 91, question := some (pyStr "질문1"),
    answer := some (pyStr "abcdefgh") }

/-- A concrete neighbor whose question and answer are both absent. -/
def ptBlank : Point Int := { id := pyStr "2", score := 85 }

/-- A deterministic gateway set: one fixed neighbor, a fixed completion. -/
def gwA : Gateways Int Int :=
  { embed1 := fun _ => 0
    search := fun _ _ _ => [ptA]
    completeRaw := fun _ _ => some (pyStr "답변")
    stream := fun _ _ => [] }

/-- A second gateway set, differing from `gwA` in every collaborator. -/
def gwB : Gateways Int Int :=
  { embed1 := fun _ => 1
    search := fun _ _ _ => []
    completeRaw := fun _ _ => none
    stream := fun _ _ => [] }

/-- A gateway set whose vector search finds nothing. -/
def gwEmpty : Gateways Int Int :=
  { embed1 := fun _ => 0
    search := fun _ _ _ => []
    completeRaw := fun _ _ => some (pyStr "답변")
    stream := fun _ _ => [] }

/-- A concrete graph state holding only the entry fields. -/
def stateA : GraphState Int Int :=
  { question := some (pyStr "질문"), top_k := some 3 }

/-- The state produced from `stateA` by the embed node. -/
def stateA1 : GraphState Int Int :=
  { stateA with query_vec := some 0, embed_ms := some 0 }

/-! ## Helper lemmas -/

/-- Python `a or a` is `a` under the falsy rule for strings. -/
theorem pyOr_self (a : PyStr) : pyOr a a = a := by
  unfold pyOr
  by_cases h : a = [] <;> simp [h]

/-- Passing the active collection explicitly resolves to the same
collection as passing `None`. -/
theorem resolvedCollection_some_active (cfg : Config) :
    resolvedCollection cfg (some (_active_collection_name cfg))
      = resolvedCollection cfg none := by
  show pyTrim (pyOr (_active_collection_name cfg) (_active_collection_name cfg))
      = pyTrim (_active_collection_name cfg)
  rw [pyOr_self]

/-- The search `qdrant_search_laws` behaves identically when called with the active
collection explicitly and when called with `None`. -/
theorem qdrant_search_laws_some_active {Vec σ : Type} (cfg : Config)
    (gw : Gateways Vec σ) (v : Vec) (k : Int) :
    qdrant_search_laws cfg gw v k (some (_active_collection_name cfg))
      = qdrant_search_laws cfg gw v k none := by
  unfold qdrant_search_laws
  rw [resolvedCollection_some_active]

/-- The prompt literals inlined in the graph node are the ones of
`_build_prompts`. -/
theorem graphSystemPrompt_eq : graphSystemPrompt = lawSystemPrompt := rfl

/-- The graph node user prompt is the `_build_prompts` user prompt. -/
theorem graphUserPrompt_eq (q c : PyStr) :
    graphUserPrompt q c = lawUserPrompt q c := rfl

/-- The enumerated loop of `build_context_from_points` emits exactly one
section per neighbor, in input order, whatever the starting index. -/
theorem contextLines_eq_flatten {σ : Type} (C : Int) (n : Nat)
    (points : List (Point σ)) :
    contextLines n points C
      = ((points.enumFrom n).map fun ip => pointLines ip.1 ip.2 C).flatten := by
  induction points generalizing n with
  | nil => rfl
  | cons p rest ih => simp [contextLines, ih]

/-- Every per-neighbor section starts with its header line. -/
theorem pointLines_head {σ : Type} (i : Nat) (p : Point σ) (C : Int) :
    (pointLines i p C).head? = some (headerLine i) := by
  simp [pointLines]

/-- The emitted answer text never exceeds the cap plus the marker length. -/
theorem processedAnswer_length_le {σ : Type} (C : Int) (hC : 0 < C)
    (p : Point σ) :
    (processedAnswer C p).length ≤ C.toNat + truncMarker.length := by
  unfold processedAnswer
  by_cases h : C > 0 ∧ ((pyTrim (p.answer.getD [])).length : Int) > C
  · rw [if_pos h]
    simp only [List.length_append, List.length_take]
    omega
  · rw [if_neg h]
    omega

/-- The truncation marker is appended exactly when the stripped answer is
longer than the cap. -/
theorem processedAnswer_marker_iff {σ : Type} (C : Int) (hC : 0 < C)
    (p : Point σ) :
    (pyTrim (p.answer.getD [])).length > C.toNat
      ↔ processedAnswer C p
          = (pyTrim (p.answer.getD [])).take C.toNat ++ truncMarker := by
  unfold processedAnswer
  constructor
  · intro hgt
    have hcond : C > 0 ∧ ((pyTrim (p.answer.getD [])).length : Int) > C := by
      refine ⟨hC, ?_⟩
      omega
    rw [if_pos hcond]
  · intro heq
    by_contra hle
    push_neg at hle
    have hneg : ¬(C > 0 ∧ ((pyTrim (p.answer.getD [])).length : Int) > C) := by
      omega
    rw [if_neg hneg] at heq
    have hlen := congrArg List.length heq
    simp only [List.length_append, List.length_take] at hlen
    have hm : truncMarker.length = 1 := rfl
    omega

/-- An element that fails the predicate survives `dropWhile`. -/
theorem mem_dropWhile_of_mem {α : Type} (p : α → Bool) (l : List α) (a : α)
    (ha : a ∈ l) (hpa : p a = false) : a ∈ l.dropWhile p := by
  induction l with
  | nil => cases ha
  | cons x t ih =>
    by_cases hx : p x
    · rw [List.dropWhile_cons_of_pos hx]
      rcases List.mem_cons.1 ha with h | h
      · subst h
        rw [hx] at hpa
        cases hpa
      · exact ih h
    · rw [List.dropWhile_cons_of_neg hx]
      exact ha

/-- A string containing a non-whitespace character does not strip to the
empty string. -/
theorem pyTrim_ne_nil_of_mem (s : PyStr) (c : Char) (hc : c ∈ s)
    (hw : c.isWhitespace = false) : pyTrim s ≠ [] := by
  unfold pyTrim
  have h1 := mem_dropWhile_of_mem Char.isWhitespace s c hc hw
  have h2 : c ∈ (s.dropWhile Char.isWhitespace).reverse := List.mem_reverse.2 h1
  have h3 := mem_dropWhile_of_mem Char.isWhitespace _ c h2 hw
  have h4 : c ∈ ((s.dropWhile Char.isWhitespace).reverse.dropWhile
      Char.isWhitespace).reverse := List.mem_reverse.2 h3
  intro hnil
  rw [hnil] at h4
  cases h4

/-- A member of the first block is a member of the intercalated list. -/
theorem mem_intercalate_head {α : Type} (sep hd : List α) (tl : List (List α))
    (a : α) (ha : a ∈ hd) : a ∈ List.intercalate sep (hd :: tl) := by
  unfold List.intercalate
  refine List.mem_flatten.2 ⟨hd, ?_, ha⟩
  cases tl <;> simp [List.intersperse]

/-- The opening bracket of the header is in every header line. -/
theorem headerLine_mem_bracket (i : Nat) : '[' ∈ headerLine i := by
  unfold headerLine
  exact List.mem_append_left _ (List.mem_append_left _ (by decide))

/-- The lines of a non-empty neighbor list start with the first header. -/
theorem contextLines_cons_head {σ : Type} (i : Nat) (p : Point σ)
    (rest : List (Point σ)) (C : Int) :
    ∃ L, contextLines i (p :: rest) C = headerLine i :: L :=
  ⟨_, rfl⟩

/-- The assembled context of a non-empty neighbor list is non-empty. -/
theorem build_context_ne_nil {σ : Type} (points : List (Point σ)) (C : Int)
    (h : points ≠ []) : build_context_from_points points C ≠ [] := by
  cases points with
  | nil => exact absurd rfl h
  | cons p rest =>
    obtain ⟨L, hL⟩ := contextLines_cons_head 1 p rest C
    unfold build_context_from_points
    rw [hL]
    exact pyTrim_ne_nil_of_mem _ '['
      (mem_intercalate_head _ _ _ _ (headerLine_mem_bracket 1)) (by decide)

/-- A neighbor whose question and answer are both blank still gets its
header (followed only by the blank separator line). -/
theorem pointLines_blank {σ : Type} (i : Nat) (p : Point σ) (C : Int)
    (hq : pyTrim (p.question.getD []) = [])
    (ha : pyTrim (p.answer.getD []) = []) :
    pointLines i p C = [headerLine i, []] := by
  have hpa : processedAnswer C p = [] := by
    unfold processedAnswer
    rw [ha]
    have hneg : ¬(C > 0 ∧ ((([] : PyStr)).length : Int) > C) := by
      rintro ⟨h1, h2⟩
      simp at h2
      omega
    rw [if_neg hneg]
  unfold pointLines
  rw [hq, hpa]
  simp

/-! ## Claims -/

/-- Claim C1: for every question string and top_k, given deterministic
embedding, vector-search and generation gateways, the direct-call pipeline
`search_law_with_answer` and the graph pipeline `answer_law_question_graph`
return the same (answer, neighbor list) pair: both encode the identical
embed → retrieve → prompt → generate sequence. -/
theorem direct_and_graph_pipelines_agree {Vec σ : Type} (cfg : Config)
    (gw : Gateways Vec σ) (question : PyStr) (top_k : Int) :
    search_law_with_answer cfg gw question top_k
      = answer_law_question_graph cfg gw question top_k := by
  simp only [search_law_with_answer, answer_law_question_graph, _node_embed,
    _node_retrieve, _node_prompt, _node_generate, Option.getD_some,
    qdrant_search_laws_some_active]
  cases hq : qdrant_search_laws cfg gw (gw.embed1 question) top_k none with
  | error e => simp [hq]
  | ok pts => simp [hq, _build_prompts, graphSystemPrompt_eq, graphUserPrompt_eq]

/-- Claim C2: for every question string and top_k, given the same
deterministic gateways, the synchronous entry operation
`search_law_with_answer` and the streaming entry operation
`stream_law_answer` retrieve the same neighbor list. -/
theorem sync_and_stream_retrieve_same_neighbors {Vec σ : Type} (cfg : Config)
    (gw : Gateways Vec σ) (question : PyStr) (top_k : Int) :
    (search_law_with_answer cfg gw question top_k).map Prod.snd
      = (stream_law_answer cfg gw question top_k).map Prod.snd := by
  simp only [search_law_with_answer, stream_law_answer]
  cases hq : qdrant_search_laws cfg gw (gw.embed1 question) top_k
      (some (_active_collection_name cfg)) with
  | error e => simp [hq, Except.map]
  | ok pts => simp [hq, Except.map]

/-- Claim C3: for every neighbor sequence and per-document character cap
C > 0 (default 900), the context assembler emits one section per neighbor
in the input rank order (1-indexed, each section headed by its own
`[문서 i]` label), and in each section the emitted answer text never
exceeds C characters plus the length of the truncation marker, the marker
being appended exactly when the stripped answer exceeded C characters. -/
theorem context_assembler_rank_order_and_cap {σ : Type} (points : List (Point σ))
    (C : Int) (hC : 0 < C) :
    contextLines 1 points C
        = ((points.enumFrom 1).map fun ip => pointLines ip.1 ip.2 C).flatten
      ∧ (∀ (i : Nat) (p : Point σ), (pointLines i p C).head? = some (headerLine i))
      ∧ ∀ p ∈ points,
          (processedAnswer C p).length ≤ C.toNat + truncMarker.length
          ∧ ((pyTrim (p.answer.getD [])).length > C.toNat
              ↔ processedAnswer C p
                  = (pyTrim (p.answer.getD [])).take C.toNat ++ truncMarker) :=
  ⟨contextLines_eq_flatten C 1 points,
   fun i p => pointLines_head i p C,
   fun p _ => ⟨processedAnswer_length_le C hC p, processedAnswer_marker_iff C hC p⟩⟩

/-- Witness for C3 at the concrete neighbor `ptA` with cap 5: the stripped
answer has 8 characters, so the cap applies, and its emitted length stays
within 5 plus the marker length. -/
theorem context_assembler_rank_order_and_cap_witness :
    (0 : Int) < 5
      ∧ (processedAnswer 5 ptA).length ≤ (5 : Int).toNat + truncMarker.length :=
  ⟨by decide,
   ((context_assembler_rank_order_and_cap [ptA] 5 (by decide)).2.2 ptA
      (List.mem_cons_self ptA [])).1⟩

/-- Claim C10: for every non-empty neighbor sequence the assembled context
is non-empty, consists of one section per neighbor in input order with
consecutive 1-indexed `[문서 i]` headers, and the header is emitted even
when the neighbor question and answer payloads are both absent or blank
(only the Q:/A: lines are omitted then). -/
theorem nonempty_context_has_headers {σ : Type} (points : List (Point σ))
    (C : Int) (h : points ≠ []) :
    build_context_from_points points C ≠ []
      ∧ contextLines 1 points C
          = ((points.enumFrom 1).map fun ip => pointLines ip.1 ip.2 C).flatten
      ∧ (∀ (i : Nat) (p : Point σ), (pointLines i p C).head? = some (headerLine i))
      ∧ ∀ (i : Nat) (p : Point σ),
          pyTrim (p.question.getD []) = [] → pyTrim (p.answer.getD []) = [] →
            pointLines i p C = [headerLine i, []] :=
  ⟨build_context_ne_nil points C h,
   contextLines_eq_flatten C 1 points,
   fun i p => pointLines_head i p C,
   fun i p hq ha => pointLines_blank i p C hq ha⟩

/-- Witness for C10 at the one-element neighbor list whose payload is
blank: the context is non-empty, and the blank neighbor still gets its
header line. -/
theorem nonempty_context_has_headers_witness :
    build_context_from_points [ptBlank] 900 ≠ []
      ∧ pointLines 1 ptBlank 900 = [headerLine 1, []] :=
  ⟨(nonempty_context_has_headers [ptBlank] 900 (List.cons_ne_nil ptBlank [])).1,
   (nonempty_context_has_headers [ptBlank] 900
      (List.cons_ne_nil ptBlank [])).2.2.2 1 ptBlank (by decide) (by decide)⟩

/-- Claim C5: every stage of the graph pipeline writes only its own
designated state fields (populating them) and leaves every previously
populated field of the pipeline state unchanged: the embed node writes only
query_vec and embed_ms, the retrieve node only points, qdrant_ms and the
derived context, the prompt node only the prompt pair, the generate node
only the answer — so along the graph each field is written by exactly one
stage and never mutated afterward. -/
theorem graph_nodes_write_only_their_fields {Vec σ : Type} (cfg : Config)
    (gw : Gateways Vec σ) (s : GraphState Vec σ) :
    (∀ s1, _node_embed gw s = .ok s1 →
        s1.question = s.question ∧ s1.top_k = s.top_k
        ∧ s1.qdrant_ms = s.qdrant_ms ∧ s1.points = s.points
        ∧ s1.context = s.context ∧ s1.system_prompt = s.system_prompt
        ∧ s1.user_prompt = s.user_prompt ∧ s1.answer = s.answer
        ∧ s1.query_vec.isSome ∧ s1.embed_ms.isSome)
    ∧ (∀ s2, _node_retrieve cfg gw s = .ok s2 →
        s2.question = s.question ∧ s2.top_k = s.top_k
        ∧ s2.query_vec = s.query_vec ∧ s2.embed_ms = s.embed_ms
        ∧ s2.system_prompt = s.system_prompt ∧ s2.user_prompt = s.user_prompt
        ∧ s2.answer = s.answer
        ∧ s2.points.isSome ∧ s2.context.isSome ∧ s2.qdrant_ms.isSome)
    ∧ (∀ s3, _node_prompt s = .ok s3 →
        s3.question = s.question ∧ s3.top_k = s.top_k
        ∧ s3.query_vec = s.query_vec ∧ s3.embed_ms = s.embed_ms
        ∧ s3.qdrant_ms = s.qdrant_ms ∧ s3.points = s.points
        ∧ s3.context = s.context ∧ s3.answer = s.answer
        ∧ s3.system_prompt.isSome ∧ s3.user_prompt.isSome)
    ∧ (∀ s4, _node_generate gw s = .ok s4 →
        s4.question = s.question ∧ s4.top_k = s.top_k
        ∧ s4.query_vec = s.query_vec ∧ s4.embed_ms = s.embed_ms
        ∧ s4.qdrant_ms = s.qdrant_ms ∧ s4.points = s.points
        ∧ s4.context = s.context ∧ s4.system_prompt = s.system_prompt
        ∧ s4.user_prompt = s.user_prompt
        ∧ s4.answer.isSome) := by
  refine ⟨?_, ?_, ?_, ?_⟩
  · intro s1 h
    unfold _node_embed at h
    cases hq : s.question with
    | none => rw [hq] at h; cases h
    | some q =>
      rw [hq] at h
      injection h with h
      subst h
      simp
  · intro s2 h
    unfold _node_retrieve at h
    cases hv : s.query_vec with
    | none => rw [hv] at h; cases h
    | some vec =>
      simp only [hv] at h
      cases hq : qdrant_search_laws cfg gw vec (s.top_k.getD 5) with
      | error e => rw [hq] at h; cases h
      | ok pts =>
        rw [hq] at h
        injection h with h
        subst h
        simp
  · intro s3 h
    unfold _node_prompt at h
    cases hq : s.question with
    | none => rw [hq] at h; cases h
    | some q =>
      rw [hq] at h
      injection h with h
      subst h
      simp
  · intro s4 h
    unfold _node_generate at h
    cases hsp : s.system_prompt with
    | none => rw [hsp] at h; cases h
    | some sp =>
      rw [hsp] at h
      cases hup : s.user_prompt with
      | none => rw [hup] at h; cases h
      | some up =>
        rw [hup] at h
        injection h with h
        subst h
        simp

/-- Witness for C5: the embed node applied to the concrete entry state
populates `query_vec` and leaves `question` untouched. -/
theorem graph_nodes_write_only_their_fields_witness :
    _node_embed gwA stateA = Except.ok stateA1
      ∧ stateA1.question = stateA.question :=
  ⟨rfl, ((graph_nodes_write_only_their_fields cfgA gwA stateA).1 stateA1 rfl).1⟩

/-- Claim C8: if the resolved target collection name is empty after
trimming, `qdrant_search_laws` raises the configuration error immediately,
and the result is independent of the search gateway — no network request
is issued and (the adapter containing no retry logic at all) the error is
never retried. -/
theorem empty_collection_is_config_error {Vec σ : Type} (cfg : Config)
    (collection_name : Option PyStr) (v : Vec) (k : Int)
    (gw gw2 : Gateways Vec σ)
    (hurl : cfg.QDRANT_URL ≠ [])
    (hcol : resolvedCollection cfg collection_name = []) :
    qdrant_search_laws cfg gw v k collection_name
        = .error "QDRANT_COLLECTION_NAME/QDRANT_COLLECTION_OAI 가 비었습니다. .env 확인"
      ∧ qdrant_search_laws cfg gw v k collection_name
          = qdrant_search_laws cfg gw2 v k collection_name := by
  unfold qdrant_search_laws
  simp [if_neg hurl, if_pos hcol]

/-- Witness for C8: the concrete misconfiguration with both collection
names empty produces the configuration error with no gateway involvement. -/
theorem empty_collection_is_config_error_witness :
    cfgEmptyCol.QDRANT_URL ≠ []
      ∧ qdrant_search_laws cfgEmptyCol gwA 0 5 none
          = Except.error "QDRANT_COLLECTION_NAME/QDRANT_COLLECTION_OAI 가 비었습니다. .env 확인" :=
  ⟨by decide,
   (empty_collection_is_config_error cfgEmptyCol none 0 5 gwA gwB
      (by decide) (by decide)).1⟩

/-- The delta-skipping loop of the stream adapter, expressed as a filter of
the extracted deltas. -/
theorem filterMap_delta_eq_filter (l : List StreamChunk) :
    (l.filterMap fun ch =>
        match chunkDelta ch with
        | none => none
        | some delta => if delta = [] then none else some delta)
      = (l.filterMap chunkDelta).filter fun d => !d.isEmpty := by
  induction l with
  | nil => rfl
  | cons ch t ih =>
    cases h : chunkDelta ch with
    | none => simp [List.filterMap_cons, h, ih]
    | some d =>
      cases d with
      | nil => simp [List.filterMap_cons, h, ih, List.filter_cons]
      | cons c cs => simp [List.filterMap_cons, h, ih, List.filter_cons]

/-- Claim C9: the token stream returned by `call_openai_chat_stream` is
exactly the subsequence of non-empty deltas of the backend chunk stream, in
order: chunks with a missing or empty delta are silently dropped, no
yielded fragment is the empty string, and the yielded fragments are never
more numerous than the backend chunks. -/
theorem stream_yields_nonempty_deltas_in_order {Vec σ : Type}
    (gw : Gateways Vec σ) (system_prompt user_prompt : PyStr) :
    call_openai_chat_stream gw system_prompt user_prompt
        = ((gw.stream system_prompt user_prompt).filterMap chunkDelta).filter
            (fun d => !d.isEmpty)
      ∧ (∀ d ∈ call_openai_chat_stream gw system_prompt user_prompt, d ≠ [])
      ∧ (call_openai_chat_stream gw system_prompt user_prompt).length
          ≤ (gw.stream system_prompt user_prompt).length := by
  refine ⟨filterMap_delta_eq_filter _, ?_, ?_⟩
  · intro d hd
    unfold call_openai_chat_stream at hd
    rw [filterMap_delta_eq_filter] at hd
    have hmem := List.mem_filter.1 hd
    intro hnil
    subst hnil
    simp at hmem
  · unfold call_openai_chat_stream
    exact List.length_filterMap_le _ _

/-- Counterexample to claim C4 as stated: with zero retrieved neighbors
the assembled context block is the empty string, so the context section of
the prompt states nothing at all — in particular it does not state that no
grounding documents were found; the user prompt is just the fixed template
wrapped around the question and an empty context. -/
theorem empty_neighbors_context_states_nothing :
    build_context_from_points ([] : List (Point Int)) 900 = []
      ∧ lawUserPrompt (pyStr "질문")
          (build_context_from_points ([] : List (Point Int)) 900)
        = pyStr "질문: 질문\n\n아래는 참고 문서(근거)입니다:\n\n\n요구 형식대로 답해주세요. 각 문장은 가능한 한 [문서 n] 근거를 붙이세요." := by
  exact ⟨rfl, by decide⟩

/-- Claim C4 amended: when the vector search returns zero neighbors, the
pipeline still completes without raising and produces a non-empty prompt
pair — but the context section is simply empty; no statement about missing
documents is emitted. -/
theorem empty_retrieval_still_builds_prompt {Vec σ : Type} (cfg : Config)
    (gw : Gateways Vec σ) (query : PyStr) (top_k : Int)
    (hurl : cfg.QDRANT_URL ≠ [])
    (hcol : resolvedCollection cfg (some (_active_collection_name cfg)) ≠ [])
    (hempty : ∀ v k c, gw.search v k c = []) :
    search_law_with_answer cfg gw query top_k
        = .ok (call_openai_chat gw lawSystemPrompt (lawUserPrompt query []), [])
      ∧ 0 < (lawUserPrompt query []).length
      ∧ 0 < lawSystemPrompt.length := by
  refine ⟨?_, ?_, by decide⟩
  · simp only [search_law_with_answer, qdrant_search_laws, if_neg hurl,
      if_neg hcol, hempty, _build_prompts]
    rfl
  · have h4 : (pyStr "질문: ").length = 4 := by decide
    simp only [lawUserPrompt, List.length_append, h4]
    omega

/-- Witness for the amended C4 at a concrete configuration and a gateway
set whose search finds nothing. -/
theorem empty_retrieval_still_builds_prompt_witness :
    search_law_with_answer cfgA gwEmpty (pyStr "질문") 3
      = Except.ok
          (call_openai_chat gwEmpty lawSystemPrompt (lawUserPrompt (pyStr "질문") []),
           []) :=
  (empty_retrieval_still_builds_prompt cfgA gwEmpty (pyStr "질문") 3
     (by decide) (by decide) (fun _ _ _ => rfl)).1

/-- Counterexample to claim C6 as stated: with top_k = 0 the direct entry
operation does not reject the call — it runs the entire pipeline, the
gateways are consulted (the retrieved neighbor and the generated answer
appear in the result), and it returns successfully. -/
theorem topk_zero_not_rejected_by_entry :
    search_law_with_answer cfgA gwA (pyStr "전세") 0
      = Except.ok (pyStr "답변", [ptA]) := rfl

/-- Claim C6 amended: the rejection of top_k = 0 or negative happens in the
HTTP request schema (`LawChatRequest`, which requires 1 ≤ top_k ≤ 20)
before the route handler ever calls the pipeline; the entry operations
themselves perform no top_k validation. -/
theorem topk_nonpositive_rejected_by_schema (question : PyStr) (top_k : Int)
    (h : top_k ≤ 0) : lawChatRequestValid question top_k = false := by
  unfold lawChatRequestValid
  rw [decide_eq_false (by omega : ¬(1 ≤ top_k))]
  simp

/-- Witness for the amended C6 at the concrete request (question, 0). -/
theorem topk_nonpositive_rejected_by_schema_witness :
    (0 : Int) ≤ 0 ∧ lawChatRequestValid (pyStr "질문") 0 = false :=
  ⟨by decide, topk_nonpositive_rejected_by_schema (pyStr "질문") 0 (by decide)⟩

/-- Counterexample to claim C7 as stated: with an empty question string the
direct entry operation does not reject the call — it runs the entire
pipeline and returns a generated answer. -/
theorem empty_question_not_rejected_by_entry :
    search_law_with_answer cfgA gwA [] 5 = Except.ok (pyStr "답변", [ptA]) := rfl

/-- Claim C7 amended: the rejection of an empty question happens in the
HTTP request schema (`LawChatRequest`, `min_length = 1`); the entry
operations perform no validation, and the embedding adapter even replaces
the empty cleaned text by a single space and proceeds to call the
provider. -/
theorem empty_question_rejected_by_schema (top_k : Int) :
    lawChatRequestValid [] top_k = false ∧ cleanEmbedInput [] = [' '] :=
  ⟨rfl, rfl⟩

end Lawbot
